import Mathlib

/-!
Shallow embedding of the HackerNews TypeScript API client
(src/HackerNews.ts and its extended variant) for checking the
natural-language specification against the code.

The network is modelled as a `World`: a map from URL strings to HTTP
results. `fetch(url).then(res => res.json())` resolves with the parsed
JSON body whenever an HTTP response arrives (node-fetch does not reject
on non-2xx statuses) and rejects on network errors or on bodies that are
not valid JSON. TypeScript `as` casts are runtime no-ops and are
embedded as such: no shape validation happens anywhere.
-/

/-- A JSON value, as produced by `res.json()`. -/
inductive Json where
  | null : Json
  | bool (b : Bool) : Json
  | num (n : Int) : Json
  | str (s : String) : Json
  | arr (xs : List Json) : Json
  | obj (fields : List (String × Json)) : Json
deriving Repr

mutual

/-- JavaScript `String(v)` conversion, used by template-literal
interpolation when building URLs. -/
def jsToString : Json → String
  | Json.null => "null"
  | Json.bool true => "true"
  | Json.bool false => "false"
  | Json.num n => toString n
  | Json.str s => s
  | Json.arr xs => String.intercalate "," (jsToStringList xs)
  | Json.obj _ => "[object Object]"

/-- `String(v)` for each element of a JSON array. -/
def jsToStringList : List Json → List String
  | [] => []
  | x :: xs => jsToString x :: jsToStringList xs

end

/-- Body of an HTTP response: either bytes that parse as JSON,
or bytes that do not. -/
inductive Body where
  | malformed : Body
  | json (v : Json) : Body
deriving Repr

/-- Result of an HTTP fetch: a network-level failure (DNS, timeout,
connection reset; node-fetch rejects) or a response with a status code
and a body (node-fetch resolves, for any status code). -/
inductive HttpResult where
  | netError (msg : String) : HttpResult
  | response (status : Nat) (body : Body) : HttpResult
deriving Repr

/-- The distinguishable ways a client operation's promise can reject. -/
inductive Err where
  | network (msg : String) : Err
  | invalidJson : Err
  | typeError : Err
deriving Repr, DecidableEq

/-- The remote world: what the server answers for each URL. -/
structure World where
  resp : String → HttpResult

/-- `fetch(url).then(res => res.json())`: rejects on a network error,
rejects when the body is not valid JSON, and otherwise resolves with
the parsed body — the HTTP status code is never inspected. -/
def fetchJson (w : World) (url : String) : Except Err Json :=
  match w.resp url with
  | HttpResult.netError m => Except.error (Err.network m)
  | HttpResult.response _ Body.malformed => Except.error Err.invalidJson
  | HttpResult.response _ (Body.json v) => Except.ok v

/-- The fixed base URL (`apiUrl` in the source); note the trailing slash. -/
def apiUrl : String := "https://hacker-news.firebaseio.com/v0/"

/-- The six story categories (`HackerNewsStoryType`). The TypeScript
union type admits no seventh value; the inductive mirrors that. -/
inductive StoryType where
  | top : StoryType
  | new : StoryType
  | best : StoryType
  | ask : StoryType
  | «show» : StoryType
  | job : StoryType
deriving Repr, DecidableEq

/-- The string each category token interpolates to. -/
def styString : StoryType → String
  | StoryType.top => "top"
  | StoryType.new => "new"
  | StoryType.best => "best"
  | StoryType.ask => "ask"
  | StoryType.«show» => "show"
  | StoryType.job => "job"

/-- URL built by `getStoryIds`: the template is
`${apiUrl}/${type}stories.json`, so a slash is inserted after `apiUrl`
even though `apiUrl` already ends in one. -/
def storyIdsUrl (t : StoryType) : String :=
  apiUrl ++ "/" ++ styString t ++ "stories.json"

/-- URL built by `getItem`: `${apiUrl}/item/${item}.json`. -/
def itemUrl (item : Json) : String :=
  apiUrl ++ "/item/" ++ jsToString item ++ ".json"

/-- URL built by `getUser`: `${apiUrl}/user/${userId}.json`. -/
def userUrl (userId : String) : String :=
  apiUrl ++ "/user/" ++ userId ++ ".json"

/-- URL built by `getMaxItemId`: `${apiUrl}/maxitem.json`. -/
def maxItemUrl : String := apiUrl ++ "/maxitem.json"

/-- URL built by `getUpdates`: `${apiUrl}/updates.json`. -/
def updatesUrl : String := apiUrl ++ "/updates.json"

/-- The resolved value of `getItem` as seen by callers: the TypeScript
return type is `HackerNewsItem | null`, and at runtime the value is the
parsed JSON body itself — `null` for a missing item (`none` here),
anything else passed through unvalidated (`some` here). -/
def decodeNullable : Json → Option Json
  | Json.null => none
  | v => some v

/-- `getItem`: one GET on `itemUrl`, body parsed, `as HackerNewsItem`
cast erased at runtime. The argument is the value interpolated into the
URL (a number for every caller in the source). -/
def getItem (w : World) (item : Json) : Except Err (Option Json) :=
  (fetchJson w (itemUrl item)).map decodeNullable

/-- `getUser`: one GET on `userUrl`, body parsed, cast erased. -/
def getUser (w : World) (userId : String) : Except Err (Option Json) :=
  (fetchJson w (userUrl userId)).map decodeNullable

/-- `getMaxItemId`: one GET on `maxItemUrl`; the `as HackerNewsItemId`
cast does not validate that the body is a number, so the raw JSON value
flows to callers. -/
def getMaxItemId (w : World) : Except Err Json :=
  fetchJson w maxItemUrl

/-- `getMaxItem`: resolve the max item ID, then fetch that item. The
source casts the result `as unknown as HackerNewsItem` (typed as always
an item), but the runtime value is whatever `getItem` resolves with,
`null` included. -/
def getMaxItem (w : World) : Except Err (Option Json) :=
  (getMaxItemId w).bind (fun itemId => getItem w itemId)

/-- `getStoryIds`: one GET on `storyIdsUrl type`; the
`as HackerNewsItemId[]` cast does not validate that the body is an
array, so the raw JSON value flows to callers. -/
def getStoryIds (w : World) (t : StoryType) : Except Err Json :=
  fetchJson w (storyIdsUrl t)

/-- `getUpdates`: one GET on `updatesUrl`; cast erased. -/
def getUpdates (w : World) : Except Err Json :=
  fetchJson w updatesUrl

/-- ECMAScript index normalisation for `Array.prototype.slice`: a
negative index counts from the end, and the result is clamped to
`[0, len]` (`Int.toNat` performs the clamp at zero). -/
def jsIndex (k : Int) (len : Nat) : Nat :=
  if k < 0 then ((len : Int) + k).toNat
  else if k ≤ (len : Int) then k.toNat
  else len

/-- ECMAScript `Array.prototype.slice(start, end)` for integer
arguments: elements from the normalised start index (inclusive) to the
normalised end index (exclusive). -/
def jsSlice (l : List α) (start stop : Int) : List α :=
  (l.take (jsIndex stop l.length)).drop (jsIndex start l.length)

/-- The pagination step of `getStories`:
`if (amount) storyIds = storyIds.slice(Math.min(offset, storyIds.length - 1),
Math.min(offset + amount, storyIds.length - 1))`. JavaScript truthiness
skips the slice exactly when `amount` is zero. -/
def hnSlice (storyIds : List Json) (offset amount : Int) : List Json :=
  if amount ≠ 0 then
    jsSlice storyIds (min offset ((storyIds.length : Int) - 1))
      (min (offset + amount) ((storyIds.length : Int) - 1))
  else storyIds

/-- `Promise.all(storyIds.map(storyId => getItem(storyId)))`: resolves
with the results in list order once every sub-fetch resolves, rejects
if any sub-fetch rejects, never yielding a partial list. -/
def mapME (f : α → Except ε β) : List α → Except ε (List β)
  | [] => Except.ok []
  | a :: as =>
    (f a).bind (fun b => (mapME f as).map (fun bs => b :: bs))

/-- `getStories(type, offset = 0, amount = 0)`: fetch the category's ID
list, slice it when `amount` is truthy, then fetch every remaining ID's
item in parallel. If the parsed ID-list body is not an array, the
`.slice`/`.map` call in the callback throws a TypeError, rejecting the
promise. -/
def getStories (w : World) (t : StoryType) (offset : Int := 0)
    (amount : Int := 0) : Except Err (List (Option Json)) :=
  match getStoryIds w t with
  | Except.error e => Except.error e
  | Except.ok (Json.arr storyIds) =>
      mapME (getItem w) (hnSlice storyIds offset amount)
  | Except.ok _ => Except.error Err.typeError

/-- `getNewStories(offset = 0, amount = 10)` from the extended variant. -/
def getNewStories (w : World) (offset : Int := 0) (amount : Int := 10) :
    Except Err (List (Option Json)) :=
  getStories w StoryType.new offset amount

/-- `getTopStories(offset = 0, amount = 10)` from the extended variant. -/
def getTopStories (w : World) (offset : Int := 0) (amount : Int := 10) :
    Except Err (List (Option Json)) :=
  getStories w StoryType.top offset amount

/-- `getBestStories(offset = 0, amount = 10)` from the extended variant. -/
def getBestStories (w : World) (offset : Int := 0) (amount : Int := 10) :
    Except Err (List (Option Json)) :=
  getStories w StoryType.best offset amount

/-- `getAskStories(offset = 0, amount = 10)` from the extended variant. -/
def getAskStories (w : World) (offset : Int := 0) (amount : Int := 10) :
    Except Err (List (Option Json)) :=
  getStories w StoryType.ask offset amount

/-- `getShowStories(offset = 0, amount = 10)` from the extended variant. -/
def getShowStories (w : World) (offset : Int := 0) (amount : Int := 10) :
    Except Err (List (Option Json)) :=
  getStories w StoryType.«show» offset amount

/-- `getJobStories(offset = 0, amount = 10)` from the extended variant. -/
def getJobStories (w : World) (offset : Int := 0) (amount : Int := 10) :
    Except Err (List (Option Json)) :=
  getStories w StoryType.job offset amount

/-!
Helper lemmas about `mapME`, `jsIndex` and the pagination slice.
-/

theorem mapME_ok_of_forall (f : α → Except ε β) (g : α → β) (l : List α)
    (h : ∀ a ∈ l, f a = Except.ok (g a)) : mapME f l = Except.ok (l.map g) := by
  induction l with
  | nil => rfl
  | cons a as ih =>
    have ha := h a (List.mem_cons_self a as)
    have hrest := ih (fun x hx => h x (List.mem_cons_of_mem a hx))
    rw [mapME, ha, hrest]
    rfl

theorem mapME_error_of_mem (f : α → Except ε β) (l : List α) (a : α) (e : ε)
    (hmem : a ∈ l) (herr : f a = Except.error e) :
    ∃ e2, mapME f l = Except.error e2 := by
  induction l with
  | nil => cases hmem
  | cons b bs ih =>
    rcases List.mem_cons.mp hmem with h | h
    · subst h
      exact ⟨e, by rw [mapME, herr]; rfl⟩
    · cases hfb : f b with
      | error e3 => exact ⟨e3, by rw [mapME, hfb]; rfl⟩
      | ok v =>
        obtain ⟨e2, h2⟩ := ih h
        exact ⟨e2, by rw [mapME, hfb, h2]; rfl⟩

theorem mapME_length (f : α → Except ε β) (l : List α) (res : List β)
    (h : mapME f l = Except.ok res) : res.length = l.length := by
  induction l generalizing res with
  | nil =>
    rw [mapME] at h
    cases h
    rfl
  | cons a as ih =>
    rw [mapME] at h
    cases hfa : f a with
    | error e => rw [hfa] at h; cases h
    | ok v =>
      rw [hfa] at h
      cases hrec : mapME f as with
      | error e => rw [hrec] at h; cases h
      | ok bs =>
        rw [hrec] at h
        cases h
        simp [ih bs hrec]

theorem mapME_get (f : α → Except ε β) (l : List α) (res : List β)
    (h : mapME f l = Except.ok res) (i : Nat) (hi : i < l.length)
    (hr : i < res.length) :
    f (l.get ⟨i, hi⟩) = Except.ok (res.get ⟨i, hr⟩) := by
  induction l generalizing res i with
  | nil => cases hi
  | cons a as ih =>
    rw [mapME] at h
    cases hfa : f a with
    | error e => rw [hfa] at h; cases h
    | ok v =>
      rw [hfa] at h
      cases hrec : mapME f as with
      | error e => rw [hrec] at h; cases h
      | ok bs =>
        rw [hrec] at h
        cases h
        cases i with
        | zero => simpa using hfa
        | succ j => exact ih bs hrec j (by simpa using hi) (by simpa using hr)

/-- The sub-range `[a, b)` of a list, as the specification words it:
the elements at indices `a` (inclusive) up to `b` (exclusive). Written
from the spec's description of the pagination slice, to be compared
with the slice the code performs. -/
def specSubRange (l : List α) (a b : Int) : List α :=
  (l.take b.toNat).drop a.toNat

theorem hnSlice_eq_specSubRange (ids : List Json) (offset amount : Int)
    (ho : 0 ≤ offset) (ha : 0 < amount) :
    hnSlice ids offset amount =
      specSubRange ids (min offset ((ids.length : Int) - 1))
        (min (offset + amount) ((ids.length : Int) - 1)) := by
  have h1 : jsIndex (min offset ((ids.length : Int) - 1)) ids.length =
      (min offset ((ids.length : Int) - 1)).toNat := by
    unfold jsIndex
    split
    · omega
    · split <;> omega
  have h2 : jsIndex (min (offset + amount) ((ids.length : Int) - 1)) ids.length =
      (min (offset + amount) ((ids.length : Int) - 1)).toNat := by
    unfold jsIndex
    split
    · omega
    · split <;> omega
  unfold hnSlice jsSlice
  rw [if_pos (by omega : amount ≠ 0), h1, h2]
  rfl

theorem jsIndex_le_pred {k : Int} {len : Nat} (h : k ≤ (len : Int) - 1) :
    jsIndex k len ≤ len - 1 := by
  unfold jsIndex
  split
  · omega
  · split <;> omega

theorem hnSlice_sublist_dropLast (ids : List Json) (offset amount : Int)
    (ha : amount ≠ 0) :
    (hnSlice ids offset amount).Sublist ids.dropLast := by
  have he : jsIndex (min (offset + amount) ((ids.length : Int) - 1)) ids.length ≤
      ids.length - 1 := jsIndex_le_pred (by omega)
  unfold hnSlice jsSlice
  rw [if_pos ha, List.dropLast_eq_take]
  exact (List.drop_sublist _ _).trans (List.take_sublist_take_left ids he)

theorem hnSlice_eq_nil_of_offset_ge (ids : List Json) (offset amount : Int)
    (ha : amount ≠ 0) (hoff : (ids.length : Int) ≤ offset) :
    hnSlice ids offset amount = [] := by
  have he : jsIndex (min (offset + amount) ((ids.length : Int) - 1)) ids.length ≤
      ids.length - 1 := jsIndex_le_pred (by omega)
  have hs : ids.length - 1 ≤ jsIndex (min offset ((ids.length : Int) - 1)) ids.length := by
    unfold jsIndex
    split
    · omega
    · split <;> omega
  unfold hnSlice jsSlice
  rw [if_pos ha]
  apply List.eq_nil_of_length_eq_zero
  rw [List.length_drop, List.length_take]
  omega

theorem getStories_eq_mapME (w : World) (t : StoryType) (ids : List Json)
    (offset amount : Int) (hw : getStoryIds w t = Except.ok (Json.arr ids)) :
    getStories w t offset amount = mapME (getItem w) (hnSlice ids offset amount) := by
  unfold getStories
  rw [hw]

theorem hnSlice_length_le (ids : List Json) (offset amount : Int)
    (ho : 0 ≤ offset) (ha : 0 < amount) :
    (hnSlice ids offset amount).length ≤ amount.toNat := by
  have h1 : jsIndex (min offset ((ids.length : Int) - 1)) ids.length =
      (min offset ((ids.length : Int) - 1)).toNat := by
    unfold jsIndex
    split
    · omega
    · split <;> omega
  have h2 : jsIndex (min (offset + amount) ((ids.length : Int) - 1)) ids.length =
      (min (offset + amount) ((ids.length : Int) - 1)).toNat := by
    unfold jsIndex
    split
    · omega
    · split <;> omega
  unfold hnSlice jsSlice
  rw [if_pos (by omega : amount ≠ 0), h1, h2, List.length_drop, List.length_take]
  omega

/-!
Concrete worlds used by witnesses and counterexamples.
-/

/-- The five-ID list from the spec's pagination example. -/
def ids5 : List Json :=
  [Json.num 10, Json.num 20, Json.num 30, Json.num 40, Json.num 50]

/-- A world whose top-stories list is `[10,20,30,40,50]` and where every
item fetch answers 200 with a JSON string echoing the fetched URL, so
results identify which IDs were fetched. -/
def wFive : World :=
  ⟨fun url =>
    if url = storyIdsUrl StoryType.top then
      HttpResult.response 200 (Body.json (Json.arr ids5))
    else HttpResult.response 200 (Body.json (Json.str url))⟩

/-- A world whose top-stories list is the one-element list `[10]`,
items echoing the fetched URL. -/
def wOne : World :=
  ⟨fun url =>
    if url = storyIdsUrl StoryType.top then
      HttpResult.response 200 (Body.json (Json.arr [Json.num 10]))
    else HttpResult.response 200 (Body.json (Json.str url))⟩

/-- A world whose top-stories list is `[10,20,30]` and where every item
fetch fails at the network level. -/
def wFail : World :=
  ⟨fun url =>
    if url = storyIdsUrl StoryType.top then
      HttpResult.response 200 (Body.json (Json.arr
        [Json.num 10, Json.num 20, Json.num 30]))
    else HttpResult.netError "connection reset"⟩

/-- A world where every URL answers 200 with the JSON literal `null`. -/
def wNull : World :=
  ⟨fun _ => HttpResult.response 200 (Body.json Json.null)⟩

/-!
Claim theorems.
-/

/-- Claim C1: for every category, non-negative offset and positive
amount, `getStories` fetches items for exactly the sub-range
`[min(offset, length-1), min(offset+amount, length-1))` of the fetched
ID list (the spec-side sub-range is `specSubRange`). -/
theorem c1_getStories_fetches_spec_subrange (w : World) (t : StoryType)
    (ids : List Json) (offset amount : Int)
    (hw : getStoryIds w t = Except.ok (Json.arr ids))
    (ho : 0 ≤ offset) (ha : 0 < amount) :
    getStories w t offset amount =
      mapME (getItem w)
        (specSubRange ids (min offset ((ids.length : Int) - 1))
          (min (offset + amount) ((ids.length : Int) - 1))) := by
  rw [getStories_eq_mapME w t ids offset amount hw,
    hnSlice_eq_specSubRange ids offset amount ho ha]

/-- Witness for C1 at the spec's example: ID list `[10,20,30,40,50]`,
`getStories(top, 1, 2)` fetches items for exactly the IDs 20 and 30
(each fetched item echoes its URL, naming the ID it was fetched for). -/
theorem c1_witness :
    getStories wFive StoryType.top 1 2 =
      mapME (getItem wFive)
        (specSubRange ids5 (min 1 ((ids5.length : Int) - 1))
          (min (1 + 2) ((ids5.length : Int) - 1))) ∧
    getStories wFive StoryType.top 1 2 =
      Except.ok
        [some (Json.str "https://hacker-news.firebaseio.com/v0//item/20.json"),
         some (Json.str "https://hacker-news.firebaseio.com/v0//item/30.json")] :=
  ⟨c1_getStories_fetches_spec_subrange wFive StoryType.top ids5 1 2 rfl
    (by decide) (by decide), rfl⟩

/-- Claim C2: for a non-empty ID list and non-zero amount, whatever
`getStories` returns was fetched for a sub-list of the ID list without
its last element — the final ID's position is unreachable. -/
theorem c2_last_element_unreachable (w : World) (t : StoryType)
    (ids : List Json) (offset amount : Int) (l : List (Option Json))
    (hw : getStoryIds w t = Except.ok (Json.arr ids))
    (_hne : ids ≠ []) (ha : amount ≠ 0)
    (hl : getStories w t offset amount = Except.ok l) :
    ∃ sub : List Json, sub.Sublist ids.dropLast ∧
      mapME (getItem w) sub = Except.ok l := by
  refine ⟨hnSlice ids offset amount,
    hnSlice_sublist_dropLast ids offset amount ha, ?_⟩
  rw [← getStories_eq_mapME w t ids offset amount hw]
  exact hl

/-- Witness for C2: on the list `[10,20,30,40,50]` with offset 0 and
amount 50, the returned items echo IDs 10,20,30,40 only — 50 is absent. -/
theorem c2_witness :
    (∃ sub : List Json, sub.Sublist ids5.dropLast ∧
      mapME (getItem wFive) sub =
        Except.ok
          [some (Json.str "https://hacker-news.firebaseio.com/v0//item/10.json"),
           some (Json.str "https://hacker-news.firebaseio.com/v0//item/20.json"),
           some (Json.str "https://hacker-news.firebaseio.com/v0//item/30.json"),
           some (Json.str "https://hacker-news.firebaseio.com/v0//item/40.json")]) :=
  c2_last_element_unreachable wFive StoryType.top ids5 0 50 _ rfl
    (by simp [ids5]) (by decide) rfl

/-- Claim C3 counterexample: with `amount = 0` and an offset at or past
the end of the one-element ID list, `getStories` does not return the
empty sequence — it skips slicing entirely and returns one item per ID
of the full list. -/
theorem c3_counterexample :
    getStoryIds wOne StoryType.top = Except.ok (Json.arr [Json.num 10]) ∧
    (1 : Int) ≥ (([Json.num 10] : List Json).length : Int) ∧
    getStories wOne StoryType.top 1 0 =
      Except.ok
        [some (Json.str "https://hacker-news.firebaseio.com/v0//item/10.json")] ∧
    getStories wOne StoryType.top 1 0 ≠ Except.ok [] := by
  refine ⟨rfl, by norm_num, rfl, ?_⟩
  intro h
  have h2 : getStories wOne StoryType.top 1 0 =
      Except.ok
        [some (Json.str "https://hacker-news.firebaseio.com/v0//item/10.json")] := rfl
  rw [h2] at h
  simp at h

/-- Claim C3 amended: for every NON-ZERO amount, an offset at or beyond
the ID-list length makes `getStories` return the empty sequence without
failing; with amount zero the offset is ignored and the full list's
items are returned instead. -/
theorem c3_amended_offset_past_end (w : World) (t : StoryType)
    (ids : List Json) (offset amount : Int)
    (hw : getStoryIds w t = Except.ok (Json.arr ids))
    (ha : amount ≠ 0) (hoff : (ids.length : Int) ≤ offset) :
    getStories w t offset amount = Except.ok [] := by
  rw [getStories_eq_mapME w t ids offset amount hw,
    hnSlice_eq_nil_of_offset_ge ids offset amount ha hoff]
  rfl

/-- Witness for C3 amended: offset 7 past the 5-element list with
amount 2 yields the empty sequence. -/
theorem c3_witness :
    getStories wFive StoryType.top 7 2 = Except.ok [] :=
  c3_amended_offset_past_end wFive StoryType.top ids5 7 2 rfl
    (by decide) (by decide)

/-- A world exhibiting the silent-coercion behaviours of the fetch
pipeline: item 1 answers HTTP 500 with the valid JSON body `null`, and
item 2 answers 200 with a JSON string instead of an item object. -/
def wC4 : World :=
  ⟨fun url =>
    if url = itemUrl (Json.num 1) then
      HttpResult.response 500 (Body.json Json.null)
    else if url = itemUrl (Json.num 2) then
      HttpResult.response 200 (Body.json (Json.str "unexpected shape"))
    else HttpResult.netError "dns failure"⟩

/-- Claim C4 counterexample: a non-2xx status whose body is valid JSON
does NOT fail the operation — a 500 carrying `null` resolves as a false
"not found", and a body of the wrong shape resolves as a value instead
of failing. -/
theorem c4_counterexample :
    wC4.resp (itemUrl (Json.num 1)) =
      HttpResult.response 500 (Body.json Json.null) ∧
    getItem wC4 (Json.num 1) = Except.ok none ∧
    ¬(∃ e : Err, getItem wC4 (Json.num 1) = Except.error e) ∧
    wC4.resp (itemUrl (Json.num 2)) =
      HttpResult.response 200 (Body.json (Json.str "unexpected shape")) ∧
    getItem wC4 (Json.num 2) =
      Except.ok (some (Json.str "unexpected shape")) := by
  refine ⟨rfl, rfl, ?_, rfl, rfl⟩
  rintro ⟨e, h⟩
  have h2 : getItem wC4 (Json.num 1) = Except.ok none := rfl
  rw [h2] at h
  exact Except.noConfusion h

/-- Claim C4 amended: network-level transport failures and
invalid-JSON bodies do fail every fetch operation with a
distinguishable error; non-2xx statuses with valid JSON bodies and
shape mismatches are not detected (see the counterexample). -/
theorem c4_amended_failures_propagate (w : World) (item : Json)
    (userId : String) (t : StoryType) (m : String) (st : Nat) :
    (w.resp (itemUrl item) = HttpResult.netError m →
      getItem w item = Except.error (Err.network m)) ∧
    (w.resp (itemUrl item) = HttpResult.response st Body.malformed →
      getItem w item = Except.error Err.invalidJson) ∧
    (w.resp (userUrl userId) = HttpResult.netError m →
      getUser w userId = Except.error (Err.network m)) ∧
    (w.resp (userUrl userId) = HttpResult.response st Body.malformed →
      getUser w userId = Except.error Err.invalidJson) ∧
    (w.resp (storyIdsUrl t) = HttpResult.netError m →
      getStoryIds w t = Except.error (Err.network m)) ∧
    (w.resp (storyIdsUrl t) = HttpResult.response st Body.malformed →
      getStoryIds w t = Except.error Err.invalidJson) ∧
    (w.resp maxItemUrl = HttpResult.netError m →
      getMaxItemId w = Except.error (Err.network m)) ∧
    (w.resp maxItemUrl = HttpResult.response st Body.malformed →
      getMaxItemId w = Except.error Err.invalidJson) ∧
    (w.resp updatesUrl = HttpResult.netError m →
      getUpdates w = Except.error (Err.network m)) ∧
    (w.resp updatesUrl = HttpResult.response st Body.malformed →
      getUpdates w = Except.error Err.invalidJson) := by
  refine ⟨?_, ?_, ?_, ?_, ?_, ?_, ?_, ?_, ?_, ?_⟩ <;>
    (intro h;
     simp only [getItem, getUser, getStoryIds, getMaxItemId, getUpdates,
       fetchJson, h];
     try rfl)

/-- A world where every URL suffers a network failure. -/
def wDown : World := ⟨fun _ => HttpResult.netError "timeout"⟩

/-- Witness for C4 amended: on a world where the network is down, all
five operations reject with the network error. -/
theorem c4_witness :
    getItem wDown (Json.num 1) = Except.error (Err.network "timeout") ∧
    getUser wDown "alice" = Except.error (Err.network "timeout") ∧
    getStoryIds wDown StoryType.top = Except.error (Err.network "timeout") ∧
    getMaxItemId wDown = Except.error (Err.network "timeout") ∧
    getUpdates wDown = Except.error (Err.network "timeout") := by
  have h := c4_amended_failures_propagate wDown (Json.num 1) "alice"
    StoryType.top "timeout" 200
  exact ⟨h.1 rfl, h.2.2.1 rfl, h.2.2.2.2.1 rfl, h.2.2.2.2.2.2.1 rfl,
    h.2.2.2.2.2.2.2.2.1 rfl⟩

/-- Claim C5: when the server answers an item or user request with the
JSON literal `null` (the missing-resource answer), `getItem` and
`getUser` resolve with the explicit "not found" value, not an error. -/
theorem c5_null_resolves_not_found (w : World) (item : Json)
    (userId : String) (st1 st2 : Nat)
    (hi : w.resp (itemUrl item) = HttpResult.response st1 (Body.json Json.null))
    (hu : w.resp (userUrl userId) = HttpResult.response st2 (Body.json Json.null)) :
    getItem w item = Except.ok none ∧ getUser w userId = Except.ok none := by
  constructor
  · unfold getItem fetchJson
    rw [hi]
    rfl
  · unfold getUser fetchJson
    rw [hu]
    rfl

/-- Witness for C5 on the all-null world. -/
theorem c5_witness :
    getItem wNull (Json.num 42) = Except.ok none ∧
    getUser wNull "nonexistent" = Except.ok none :=
  c5_null_resolves_not_found wNull (Json.num 42) "nonexistent" 200 200 rfl rfl

/-- Claim C6: if any per-ID item fetch issued by `getStories` fails,
the whole `getStories` call fails — no partial sequence is ever
returned (a failing result carries no list at all). -/
theorem c6_subfetch_failure_fails_all (w : World) (t : StoryType)
    (ids : List Json) (offset amount : Int) (item : Json) (e : Err)
    (hw : getStoryIds w t = Except.ok (Json.arr ids))
    (hmem : item ∈ hnSlice ids offset amount)
    (herr : getItem w item = Except.error e) :
    ∃ e2, getStories w t offset amount = Except.error e2 := by
  obtain ⟨e2, h2⟩ :=
    mapME_error_of_mem (getItem w) (hnSlice ids offset amount) item e hmem herr
  exact ⟨e2, by rw [getStories_eq_mapME w t ids offset amount hw]; exact h2⟩

/-- Witness for C6: with the ID list `[10,20,30]` and every item fetch
failing, `getStories(top, 0, 2)` rejects. -/
theorem c6_witness :
    ∃ e2, getStories wFail StoryType.top 0 2 = Except.error e2 :=
  c6_subfetch_failure_fails_all wFail StoryType.top
    [Json.num 10, Json.num 20, Json.num 30] 0 2 (Json.num 20)
    (Err.network "connection reset") rfl
    (by
      have h : hnSlice [Json.num 10, Json.num 20, Json.num 30] 0 2 =
          [Json.num 10, Json.num 20] := rfl
      rw [h]
      exact List.mem_cons_of_mem _ (List.mem_cons_self _ _))
    rfl

/-- Claim C7: with amount zero (the base operation's default),
`getStories` returns exactly one item per ID of the full unsliced list
in order, whatever the offset; and whenever `getStories` succeeds, the
result sequence matches the (possibly sliced) ID list position by
position. -/
theorem c7_full_list_and_order (w : World) (t : StoryType)
    (ids : List Json) (offset : Int)
    (hw : getStoryIds w t = Except.ok (Json.arr ids)) :
    (∀ g : Json → Option Json,
      (∀ item ∈ ids, getItem w item = Except.ok (g item)) →
      getStories w t offset 0 = Except.ok (ids.map g)) ∧
    (∀ (amount : Int) (l : List (Option Json)),
      getStories w t offset amount = Except.ok l →
      l.length = (hnSlice ids offset amount).length ∧
      ∀ (i : Nat) (hi : i < (hnSlice ids offset amount).length)
        (hr : i < l.length),
        getItem w ((hnSlice ids offset amount).get ⟨i, hi⟩) =
          Except.ok (l.get ⟨i, hr⟩)) := by
  constructor
  · intro g hg
    rw [getStories_eq_mapME w t ids offset 0 hw]
    have hid : hnSlice ids offset 0 = ids := by
      unfold hnSlice
      simp
    rw [hid]
    exact mapME_ok_of_forall (getItem w) g ids hg
  · intro amount l hl
    rw [getStories_eq_mapME w t ids offset amount hw] at hl
    exact ⟨mapME_length (getItem w) _ l hl,
      fun i hi hr => mapME_get (getItem w) _ l hl i hi hr⟩

/-- Witness for C7: on the list `[10,20,30,40,50]` with offset 3 and
amount 0, all five items come back, in list order, each echoing its
ID's URL. -/
theorem c7_witness :
    getStories wFive StoryType.top 3 0 =
      Except.ok (ids5.map (fun item => some (Json.str (itemUrl item)))) :=
  (c7_full_list_and_order wFive StoryType.top ids5 3 rfl).1
    (fun item => some (Json.str (itemUrl item)))
    (by
      intro item hmem
      fin_cases hmem <;> rfl)

/-- Claim C8 counterexample: the URL fetched for the `top` category is
NOT the base URL directly followed by `topstories.json` — the template
inserts one more slash after the base (which already ends in a slash). -/
theorem c8_counterexample :
    storyIdsUrl StoryType.top ≠ apiUrl ++ ("top" ++ "stories.json") := by
  decide

/-- Claim C8 amended: for each of the six category tokens, the URL
`getStoryIds` fetches is the base URL, a slash, the token, then the
literal `stories.json`; and the six tokens are exhaustive — no seventh
category value exists. -/
theorem c8_amended_story_paths :
    (∀ w : World, ∀ t : StoryType,
      getStoryIds w t = fetchJson w (storyIdsUrl t)) ∧
    (∀ t : StoryType,
      storyIdsUrl t = apiUrl ++ "/" ++ (styString t ++ "stories.json")) ∧
    (∀ t : StoryType,
      t = StoryType.top ∨ t = StoryType.new ∨ t = StoryType.best ∨
      t = StoryType.ask ∨ t = StoryType.«show» ∨ t = StoryType.job) := by
  refine ⟨fun w t => rfl, fun t => ?_, fun t => ?_⟩
  · cases t <;> rfl
  · cases t <;> simp

/-- A world for C9: `maxitem.json` answers with the ID 7, and every
item fetch answers with the JSON literal `null` (item absent). -/
def wMax : World :=
  ⟨fun url =>
    if url = maxItemUrl then HttpResult.response 200 (Body.json (Json.num 7))
    else HttpResult.response 200 (Body.json Json.null)⟩

/-- Claim C9: although typed as always producing an item, `getMaxItem`
resolves with the null "not found" value whenever the item fetched for
the current max ID is absent — callers can receive null. -/
theorem c9_getMaxItem_can_be_null (w : World) (maxId : Json)
    (h1 : getMaxItemId w = Except.ok maxId)
    (h2 : getItem w maxId = Except.ok none) :
    getMaxItem w = Except.ok none := by
  unfold getMaxItem
  rw [h1]
  exact h2

/-- Witness for C9: max ID 7 whose item is absent makes `getMaxItem`
resolve with the null value. -/
theorem c9_witness : getMaxItem wMax = Except.ok none :=
  c9_getMaxItem_can_be_null wMax (Json.num 7) rfl rfl

/-- Claim C10: each of the six per-category wrappers defaults offset to
0 and amount to 10, so calling one with no arguments runs
`getStories(category, 0, 10)` and returns at most 10 items — not the
full category list. -/
theorem c10_wrappers_default_ten (w : World) :
    getNewStories w = getStories w StoryType.new 0 10 ∧
    getTopStories w = getStories w StoryType.top 0 10 ∧
    getBestStories w = getStories w StoryType.best 0 10 ∧
    getAskStories w = getStories w StoryType.ask 0 10 ∧
    getShowStories w = getStories w StoryType.«show» 0 10 ∧
    getJobStories w = getStories w StoryType.job 0 10 ∧
    (∀ (t : StoryType) (ids : List Json) (l : List (Option Json)),
      getStoryIds w t = Except.ok (Json.arr ids) →
      getStories w t 0 10 = Except.ok l → l.length ≤ 10) := by
  refine ⟨rfl, rfl, rfl, rfl, rfl, rfl, ?_⟩
  intro t ids l hw hl
  rw [getStories_eq_mapME w t ids 0 10 hw] at hl
  have hlen := mapME_length (getItem w) (hnSlice ids 0 10) l hl
  have hb := hnSlice_length_le ids 0 10 (by norm_num) (by norm_num)
  omega

/-- Witness for C10: on the five-ID world, `getTopStories` with no
arguments returns four items (the off-by-one bound caps it below the
list length), which is at most 10. -/
theorem c10_witness :
    getTopStories wFive = getStories wFive StoryType.top 0 10 ∧
    ([some (Json.str "https://hacker-news.firebaseio.com/v0//item/10.json"),
      some (Json.str "https://hacker-news.firebaseio.com/v0//item/20.json"),
      some (Json.str "https://hacker-news.firebaseio.com/v0//item/30.json"),
      some (Json.str "https://hacker-news.firebaseio.com/v0//item/40.json")] :
        List (Option Json)).length ≤ 10 :=
  ⟨(c10_wrappers_default_ten wFive).2.1,
    (c10_wrappers_default_ten wFive).2.2.2.2.2.2 StoryType.top ids5 _ rfl rfl⟩
